import Mathlib

/-!
Shallow embedding of the Radio FM MCP server (`src/index.ts`) and proofs
about its request handler and formatters.

Modelling conventions:
* JavaScript strings are modelled as Lean `String`; `.length` and
  `.substring(0, n)` are modelled by codepoint count (`String.length`) and
  `String.take`, which agree with the UTF-16 semantics on BMP text.
* A JavaScript value that may be `undefined` is an `Option`; interpolating
  `undefined` into a template literal yields the text "undefined".
* `parseInt(s)` (radix 10) is `jsParseInt`, with `none` standing for `NaN`;
  `Number.prototype.toLocaleString` in the default en-US locale is
  `jsToLocaleString` (digit groups of three separated by commas, `NaN`
  rendered as "NaN").
* The single `axios.get` call is abstracted by an oracle
  `upstream : String → UpstreamOutcome`: a thrown transport error
  (timeout, network failure, non-2xx) or a parsed response body.
* The handler returns, next to the response envelope, the number of
  outbound upstream calls it performed.
-/

namespace RadioFM

/-- Digit characters to a natural number, most significant first. -/
def digitsToNat (ds : List Char) : Nat :=
  ds.foldl (fun acc c => acc * 10 + (c.toNat - 48)) 0

/-- Models JavaScript `parseInt(s)` with the default radix 10: skip leading
whitespace, read an optional sign and then the longest prefix of decimal
digits; `none` models the `NaN` result when no digit is found.  (The hex
`0x` branch of `parseInt` is not modelled; the fields it is applied to are
decimal counts.) -/
def jsParseInt (s : String) : Option Int :=
  let cs := s.data.dropWhile Char.isWhitespace
  let signAndRest : Int × List Char :=
    match cs with
    | '-' :: rest => (-1, rest)
    | '+' :: rest => (1, rest)
    | rest => (1, rest)
  let digits := signAndRest.2.takeWhile Char.isDigit
  if digits.isEmpty then none
  else some (signAndRest.1 * (digitsToNat digits : Int))

/-- Group a (reversed) digit list into chunks of three, separated by commas. -/
def groupRevDigits : List Char → List Char
  | [] => []
  | [a] => [a]
  | [a, b] => [a, b]
  | [a, b, c] => [a, b, c]
  | a :: b :: c :: d :: rest => a :: b :: c :: ',' :: groupRevDigits (d :: rest)

/-- Models `Number.prototype.toLocaleString()` in the en-US default locale on
an integer (`none`, i.e. `NaN`, renders as "NaN"). -/
def jsToLocaleString : Option Int → String
  | none => "NaN"
  | some n =>
    let ds := (Nat.repr n.natAbs).data
    (if n < 0 then "-" else "") ++ String.mk (groupRevDigits ds.reverse).reverse

/-- Renders an `Option String` the way a JS template literal renders a value
that may be `undefined`. -/
def jsDisplay : Option String → String
  | none => "undefined"
  | some s => s

/-- The `RadioStation` interface of `src/index.ts`. -/
structure RadioStation where
  st_id : String
  st_name : String
  st_logo : String
  st_weburl : String
  st_shorturl : String
  st_genre : String
  st_lang : String
  language : String
  st_bc_freq : String
  st_city : String
  st_state : String
  country_name_rs : String
  st_country : String
  st_play_cnt : String
  st_fav_cnt : String
  stream_link : String
  stream_type : String
  stream_bitrate : String
  deeplink : String
deriving DecidableEq

/-- The `Podcast` interface of `src/index.ts`. -/
structure Podcast where
  p_id : String
  p_name : String
  p_desc : String
  p_lang : String
  p_image : String
  p_email : String
  cat_name : String
  total_stream : String
  deeplink : String
  cc_code : String
deriving DecidableEq

/-- The payload of one search group: `RadioStation[] | Podcast[]` in the
`ApiResponse` interface. -/
inductive GroupPayload where
  | stations (l : List RadioStation)
  | podcasts (l : List Podcast)
deriving DecidableEq

/-- `Array.prototype.length` of the group payload. -/
def GroupPayload.length : GroupPayload → Nat
  | .stations l => l.length
  | .podcasts l => l.length

/-- A station whose every field reads as the JS `undefined` interpolation
text; used to model the unchecked `as RadioStation[]` cast applied to a
group that actually carries podcast records (every `st_*` field access on
such an object yields `undefined`). -/
def undefinedStation : RadioStation :=
  { st_id := "undefined", st_name := "undefined", st_logo := "undefined",
    st_weburl := "undefined", st_shorturl := "undefined",
    st_genre := "undefined", st_lang := "undefined", language := "undefined",
    st_bc_freq := "undefined", st_city := "undefined", st_state := "undefined",
    country_name_rs := "undefined", st_country := "undefined",
    st_play_cnt := "undefined", st_fav_cnt := "undefined",
    stream_link := "undefined", stream_type := "undefined",
    stream_bitrate := "undefined", deeplink := "undefined" }

/-- The unchecked `radioData.data as RadioStation[]` cast. -/
def GroupPayload.castStations : GroupPayload → List RadioStation
  | .stations l => l
  | .podcasts l => l.map (fun _ => undefinedStation)

/-- One element of the `Data` array: `{ type: string, data: ... }`. -/
structure SearchGroup where
  type : String
  data : GroupPayload
deriving DecidableEq

/-- The nested `data` object of the upstream response body. -/
structure ApiData where
  ErrorCode : Int
  ErrorMessage : String
  Data : Option (List SearchGroup)
deriving DecidableEq

/-- The `ApiResponse` interface of `src/index.ts`. -/
structure ApiResponse where
  http_response_code : Int
  http_response_message : String
  data : ApiData
deriving DecidableEq

/-- Outcome of the single `axios.get` call: either the promise rejects
(timeout, network error, non-2xx status) with an error whose `.message` is
the given string, or it resolves with a parsed body. -/
inductive UpstreamOutcome where
  | thrown (message : String)
  | response (body : ApiResponse)
deriving DecidableEq

/-- `formatRadioStation` of `src/index.ts`, as the list of lines it joins. -/
def formatRadioStationLines (station : RadioStation) (index : Nat) : List String :=
  let lines := [
    s!"{index}. {station.st_name}",
    s!"Location: {station.st_city}, {station.st_state}, {station.country_name_rs}",
    s!"Language: {station.language}",
    s!"Genre: {station.st_genre}"]
  let lines :=
    if station.st_bc_freq ≠ "~" then
      lines ++ [s!"Frequency: {station.st_bc_freq}"]
    else lines
  lines ++ [
    s!"Stream: {station.stream_type} {station.stream_bitrate}kbps",
    s!"Plays: {jsToLocaleString (jsParseInt station.st_play_cnt)}",
    s!"Listen:\x27https://appradiofm.com/radioplay/\x27 {station.st_shorturl}"]

/-- `formatRadioStation` of `src/index.ts`: `lines.join('\n')`. -/
def formatRadioStation (station : RadioStation) (index : Nat) : String :=
  String.intercalate "\n" (formatRadioStationLines station index)

/-- The `shortDesc` computation of `formatPodcast` (`src/index.ts` lines
88-90): `p_desc.length > 100 ? p_desc.substring(0, 100) + "..." : p_desc`. -/
def shortDescJs (desc : String) : String :=
  if desc.length > 100 then desc.take 100 ++ "..." else desc

/-- `formatPodcast` of `src/index.ts`, as the list of lines it joins.  The
guard `if (podcast.p_desc)` is JS string truthiness: the description line is
pushed exactly when `p_desc` is non-empty. -/
def formatPodcastLines (podcast : Podcast) (index : Nat) : List String :=
  let lines := [
    s!"{index}. {podcast.p_name}",
    s!"Category: {podcast.cat_name}",
    s!"Language: {podcast.p_lang}"]
  let lines :=
    if podcast.p_desc ≠ "" then
      lines ++ [s!"Description: {shortDescJs podcast.p_desc}"]
    else lines
  lines ++ [
    s!"Streams: {jsToLocaleString (jsParseInt podcast.total_stream)}",
    s!"Listen: {podcast.deeplink}"]

/-- `formatPodcast` of `src/index.ts`: `lines.join('\n')`. -/
def formatPodcast (podcast : Podcast) (index : Nat) : String :=
  String.intercalate "\n" (formatPodcastLines podcast index)

/-- `params.arguments` of a `tools/call` request. -/
structure McpArgs where
  query : Option String
deriving DecidableEq

/-- `params` of an inbound envelope. -/
structure McpParams where
  name : Option String
  arguments : Option McpArgs
deriving DecidableEq

/-- The inbound request body `{method, params, id}`; the JSON-RPC `id` is an
opaque value of type `ι`. -/
structure McpRequest (ι : Type) where
  method : Option String
  params : Option McpParams
  id : ι
deriving DecidableEq

/-- `serverInfo` of the initialize result. -/
structure ServerInfo where
  name : String
  version : String
deriving DecidableEq

/-- `capabilities` of the initialize result: the literal `{ tools: {} }`. -/
structure Capabilities where
  tools : Unit
deriving DecidableEq

/-- The fixed result payload of the `initialize` branch. -/
structure InitializeResult where
  protocolVersion : String
  capabilities : Capabilities
  serverInfo : ServerInfo
deriving DecidableEq

/-- The `query` property of the tool input schema. -/
structure QuerySchema where
  type : String
  description : String
deriving DecidableEq

/-- The `inputSchema` of the tool descriptor. -/
structure InputSchema where
  type : String
  propertiesQuery : QuerySchema
  required : List String
deriving DecidableEq

/-- One entry of the `tools` array returned by `tools/list`. -/
structure ToolDescriptor where
  name : String
  description : String
  inputSchema : InputSchema
deriving DecidableEq

/-- One element of the `content` array of a `tools/call` result. -/
structure ContentItem where
  type : String
  text : String
deriving DecidableEq

/-- The `result` field of a success envelope. -/
inductive McpResult where
  | initResult (r : InitializeResult)
  | toolsList (tools : List ToolDescriptor)
  | callResult (content : List ContentItem)
deriving DecidableEq

/-- The `error` object of a failure envelope. -/
structure ErrorObj where
  code : Int
  message : String
deriving DecidableEq

/-- Either `{result}` or `{error}` in the response envelope. -/
inductive ResponseBody where
  | success (result : McpResult)
  | failure (e : ErrorObj)
deriving DecidableEq

/-- The outbound envelope `{jsonrpc, id, result}` or `{jsonrpc, id, error}`. -/
structure ResponseEnvelope (ι : Type) where
  jsonrpc : String
  id : ι
  body : ResponseBody
deriving DecidableEq

/-- The fixed payload of the `initialize` branch (`src/index.ts` lines
126-135). -/
def initializePayload : InitializeResult :=
  { protocolVersion := "2024-11-05",
    capabilities := { tools := () },
    serverInfo := { name := "radiofm-mcp-server", version := "1.0.0" } }

/-- The fixed tool descriptor of the `tools/list` branch (`src/index.ts`
lines 146-159). -/
def searchToolDescriptor : ToolDescriptor :=
  { name := "search_radio_stations",
    description := "Search for radio stations and podcasts worldwide by name, location, language, or genre",
    inputSchema :=
      { type := "object",
        propertiesQuery :=
          { type := "string",
            description := "Search query (e.g., \"BBC\", \"India\", \"Hindi\", \"Jazz\")" },
        required := ["query"] } }

/-- The fixed "no results" guidance text (`src/index.ts` line 200),
interpolated with the query. -/
def noResultsText (query : String) : String :=
  s!"🔍 No results found for \"{query}\"\n\nTry searching with:\n- Station name (e.g., \"BBC\", \"NPR\")\n- Country (e.g., \"UK\", \"USA\", \"India\")\n- Language (e.g., \"English\", \"Spanish\")\n- Genre (e.g., \"Jazz\", \"News\", \"Rock\")"

/-- A `{jsonrpc:'2.0', id, result:{content:[{type:'text', text}]}}` envelope. -/
def contentEnvelope {ι : Type} (id : ι) (text : String) : ResponseEnvelope ι :=
  { jsonrpc := "2.0", id := id,
    body := .success (.callResult [{ type := "text", text := text }]) }

/-- The `sections` array built by the `tools/call` branch for a non-empty
`Data` array (`src/index.ts` lines 207-228).  The podcast block, lines
218-226 of the source, is commented out there and therefore absent here. -/
def searchSections (query : String) (results : List SearchGroup) : List String :=
  let sections := [s!"Search Results for \"{query}\""]
  let radioData := results.find? (fun r => r.type == "radio")
  let sections :=
    match radioData with
    | some rd =>
      if rd.data.length > 0 then
        let stations := rd.data.castStations
        sections ++ [s!"\nRADIO STATIONS ({stations.length})"]
          ++ stations.mapIdx (fun index station => formatRadioStation station (index + 1))
      else sections
    | none => sections
  sections ++ ["\nTap on any \"Listen\" link to play on radiofm.co"]

/-- `resultText = sections.join('\n')` (`src/index.ts` line 230). -/
def searchResultText (query : String) (results : List SearchGroup) : String :=
  String.intercalate "\n" (searchSections query results)

/-- Models the runtime `TypeError` thrown by
`const { name, arguments: args } = params` when `params` is `undefined`. -/
def destructureErrMsg : String :=
  "Cannot destructure property \x27name\x27 of \x27params\x27 as it is undefined."

/-- The body of the `try` block of the `/mcp` handler: either a response
envelope or the `.message` of a thrown error, paired with the number of
outbound upstream calls performed on that path. -/
def mcpDispatch {ι : Type} (upstream : String → UpstreamOutcome)
    (req : McpRequest ι) : Except String (ResponseEnvelope ι) × Nat :=
  if req.method = some "initialize" then
    (.ok { jsonrpc := "2.0", id := req.id, body := .success (.initResult initializePayload) }, 0)
  else if req.method = some "tools/list" then
    (.ok { jsonrpc := "2.0", id := req.id, body := .success (.toolsList [searchToolDescriptor]) }, 0)
  else if req.method = some "tools/call" then
    match req.params with
    | none => (.error destructureErrMsg, 0)
    | some p =>
      if p.name = some "search_radio_stations" then
        match p.arguments.bind McpArgs.query with
        | none => (.error "Search query is required", 0)
        | some query =>
          if query = "" then (.error "Search query is required", 0)
          else
            match upstream query with
            | .thrown msg => (.error msg, 1)
            | .response apiData =>
              if apiData.data.ErrorCode ≠ 0 then (.error apiData.data.ErrorMessage, 1)
              else
                match apiData.data.Data with
                | none => (.ok (contentEnvelope req.id (noResultsText query)), 1)
                | some results =>
                  if results.length = 0 then
                    (.ok (contentEnvelope req.id (noResultsText query)), 1)
                  else
                    (.ok (contentEnvelope req.id (searchResultText query results)), 1)
      else (.error s!"Unknown tool: {jsDisplay p.name}", 0)
  else (.error s!"Unknown method: {jsDisplay req.method}", 0)

/-- The whole `POST /mcp` handler: the `try` body plus the `catch` boundary,
which renders any thrown error as
`{jsonrpc:'2.0', id: req.body.id, error:{code:-32000, message}}` with the
JS fallback `error.message || 'Internal server error'` for an empty
message.  The second component is the number of upstream calls made. -/
def mcpHandle {ι : Type} (upstream : String → UpstreamOutcome)
    (req : McpRequest ι) : ResponseEnvelope ι × Nat :=
  match mcpDispatch upstream req with
  | (.ok resp, n) => (resp, n)
  | (.error msg, n) =>
    ({ jsonrpc := "2.0", id := req.id,
       body := .failure { code := -32000,
                          message := if msg = "" then "Internal server error" else msg } }, n)

/-- A constant upstream oracle: every query gets the same response body. -/
def wUpstream (b : ApiResponse) : String → UpstreamOutcome :=
  fun _ => .response b

/-- Concrete query used by the test fixtures. -/
def wQuery : String := "BBC"

/-- Concrete `params` of a well-formed search call. -/
def wParamsSearch : McpParams :=
  { name := some "search_radio_stations",
    arguments := some { query := some wQuery } }

/-- Concrete well-formed search request. -/
def wReqSearch : McpRequest Nat :=
  { method := some "tools/call", params := some wParamsSearch, id := 7 }

/-- Concrete `initialize` request. -/
def wReqInit : McpRequest Nat :=
  { method := some "initialize", params := none, id := 1 }

/-- Concrete request with an unsupported method name. -/
def wReqBogus : McpRequest Nat :=
  { method := some "frobnicate", params := none, id := 2 }

/-- Concrete `params` of a search call whose `arguments.query` is absent. -/
def wParamsNoQuery : McpParams :=
  { name := some "search_radio_stations",
    arguments := some { query := none } }

/-- Concrete search request with a missing query. -/
def wReqNoQuery : McpRequest Nat :=
  { method := some "tools/call", params := some wParamsNoQuery, id := 4 }

/-- Concrete station with a real broadcast frequency. -/
def wStation : RadioStation :=
  { st_id := "101", st_name := "BBC One", st_logo := "logo.png",
    st_weburl := "https://example.org", st_shorturl := "bbc1",
    st_genre := "News", st_lang := "en", language := "English",
    st_bc_freq := "98.5 FM", st_city := "London", st_state := "LDN",
    country_name_rs := "UK", st_country := "UK", st_play_cnt := "1234567",
    st_fav_cnt := "10", stream_link := "https://example.org/s",
    stream_type := "MP3", stream_bitrate := "128", deeplink := "dl://bbc1" }

/-- Station variant carrying the sentinel frequency `"~"`. -/
def wStationTilde : RadioStation := { wStation with st_bc_freq := "~" }

/-- Second concrete station. -/
def wStation2 : RadioStation :=
  { wStation with st_name := "BBC Two", st_shorturl := "bbc2" }

/-- Concrete podcast with a short description. -/
def wPodShort : Podcast :=
  { p_id := "9", p_name := "Daily Pod", p_desc := "Morning news roundup",
    p_lang := "English", p_image := "img.png", p_email := "a@b.c",
    cat_name := "News", total_stream := "4321", deeplink := "dl://pod9",
    cc_code := "us" }

/-- Podcast whose description is 101 characters long. -/
def wPodLong : Podcast :=
  { wPodShort with p_desc := String.mk (List.replicate 101 'x') }

/-- Podcast whose description is exactly 100 characters long. -/
def wPodExact : Podcast :=
  { wPodShort with p_desc := String.mk (List.replicate 100 'y') }

/-- Podcast whose description is the empty string. -/
def wPodNoDesc : Podcast := { wPodShort with p_desc := "" }

/-- Upstream `Data` array holding one radio group with two stations. -/
def wResultsRadio2 : List SearchGroup :=
  [{ type := "radio", data := .stations [wStation, wStation2] }]

/-- Upstream body: success with two stations. -/
def wApiRadio2 : ApiResponse :=
  { http_response_code := 200, http_response_message := "OK",
    data := { ErrorCode := 0, ErrorMessage := "", Data := some wResultsRadio2 } }

/-- Upstream `Data` array holding only a podcast group. -/
def wResultsPodOnly : List SearchGroup :=
  [{ type := "podcast", data := .podcasts [wPodShort] }]

/-- Upstream body: success with one podcast group and no radio group. -/
def wApiPodOnly : ApiResponse :=
  { http_response_code := 200, http_response_message := "OK",
    data := { ErrorCode := 0, ErrorMessage := "", Data := some wResultsPodOnly } }

/-- Upstream body: success with an empty `Data` array. -/
def wApiEmpty : ApiResponse :=
  { http_response_code := 200, http_response_message := "OK",
    data := { ErrorCode := 0, ErrorMessage := "", Data := some [] } }

/-- Upstream body: application error 7 with message "rate limited". -/
def wApiErr : ApiResponse :=
  { http_response_code := 200, http_response_message := "OK",
    data := { ErrorCode := 7, ErrorMessage := "rate limited", Data := none } }

/-- Upstream body: application error 7 with an empty message. -/
def wApiErrEmpty : ApiResponse :=
  { http_response_code := 200, http_response_message := "OK",
    data := { ErrorCode := 7, ErrorMessage := "", Data := none } }

/-- Upstream `Data` array whose radio and podcast groups are both empty. -/
def wResultsNoGroups : List SearchGroup :=
  [{ type := "radio", data := .stations [] },
   { type := "podcast", data := .podcasts [] }]

/-- Upstream body: success with non-empty `Data` but only empty groups. -/
def wApiNoGroups : ApiResponse :=
  { http_response_code := 200, http_response_message := "OK",
    data := { ErrorCode := 0, ErrorMessage := "", Data := some wResultsNoGroups } }

/-!
Helper lemmas: string heads, the digits of `Nat.repr`, and the shape of
the dispatcher's outputs.
-/

/-- Unfolds `toString` on a `String`. -/
theorem toString_string (s : String) : toString s = s := rfl

/-- Unfolds `toString` on a `Nat`. -/
theorem toString_nat (n : Nat) : toString n = Nat.repr n := rfl

/-- Two strings with different first characters differ. -/
theorem string_head_ne {s t : String} (h : s.data.head? ≠ t.data.head?) : s ≠ t :=
  fun he => h (by rw [he])

/-- Comparing strings through their known first characters. -/
theorem head_ne_of_head {a b : String} {ca cb : Char}
    (ha : a.data.head? = some ca) (hb : b.data.head? = some cb) (h : ca ≠ cb) :
    a ≠ b := by
  apply string_head_ne
  rw [ha, hb]
  simp [h]

/-- `Nat.digitChar` of a value below ten is a decimal digit. -/
theorem digitChar_isDigit {m : Nat} (h : m < 10) : (Nat.digitChar m).isDigit := by
  interval_cases m <;> decide

/-- Every character `Nat.toDigitsCore` emits over digit-only accumulators is
a decimal digit. -/
theorem toDigitsCore_all_digits :
    ∀ (f n : Nat) (l : List Char), (∀ c ∈ l, c.isDigit) →
      ∀ c ∈ Nat.toDigitsCore 10 f n l, c.isDigit := by
  intro f
  induction f with
  | zero => intro n l hl c hc; exact hl c hc
  | succ f ih =>
    intro n l hl c hc
    simp only [Nat.toDigitsCore] at hc
    have hdig : (Nat.digitChar (n % 10)).isDigit :=
      digitChar_isDigit (Nat.mod_lt n (by decide))
    have hl' : ∀ c ∈ Nat.digitChar (n % 10) :: l, c.isDigit := by
      intro c' hc'
      rcases List.mem_cons.mp hc' with rfl | hmem
      · exact hdig
      · exact hl c' hmem
    split at hc
    · exact hl' c hc
    · exact ih (n / 10) _ hl' c hc

/-- `Nat.toDigitsCore` never shrinks a non-empty accumulator to nil. -/
theorem toDigitsCore_ne_nil :
    ∀ (f n : Nat) (l : List Char), l ≠ [] → Nat.toDigitsCore 10 f n l ≠ [] := by
  intro f
  induction f with
  | zero => intro n l hl; simpa [Nat.toDigitsCore] using hl
  | succ f ih =>
    intro n l hl
    simp only [Nat.toDigitsCore]
    split
    · simp
    · exact ih (n / 10) _ (by simp)

/-- The decimal rendering of a natural number is non-empty and consists of
decimal digits only. -/
theorem repr_data_digits (n : Nat) :
    (Nat.repr n).data ≠ [] ∧ ∀ c ∈ (Nat.repr n).data, c.isDigit := by
  have hdata : (Nat.repr n).data = Nat.toDigitsCore 10 (n + 1) n [] := rfl
  rw [hdata]
  refine ⟨?_, toDigitsCore_all_digits (n + 1) n [] (by simp)⟩
  simp only [Nat.toDigitsCore]
  split
  · simp
  · exact toDigitsCore_ne_nil n (n / 10) _ (by simp)

/-- A formatter line of the form `"{index}. …"` starts with a decimal digit. -/
theorem numbered_head_digit (index : Nat) (x : String) :
    ∃ c, (s!"{index}. {x}").data.head? = some c ∧ c.isDigit := by
  obtain ⟨hne, hdig⟩ := repr_data_digits index
  rcases hd : (Nat.repr index).data with _ | ⟨c, cs⟩
  · exact absurd hd hne
  · refine ⟨c, ?_, hdig c (by rw [hd]; exact List.mem_cons_self c cs)⟩
    simp [toString_string, toString_nat, String.data_append, hd]

/-- The "Unknown method" message is never the empty string, so the catch
boundary does not replace it. -/
theorem unknown_method_msg_ne (x : Option String) :
    s!"Unknown method: {jsDisplay x}" ≠ "" := by
  apply string_head_ne
  have h1 : "Unknown method: ".data = 'U' :: "nknown method: ".data := rfl
  simp [String.data_append, h1]

/-- The "Unknown tool" message is never the empty string. -/
theorem unknown_tool_msg_ne (x : Option String) :
    s!"Unknown tool: {jsDisplay x}" ≠ "" := by
  apply string_head_ne
  have h1 : "Unknown tool: ".data = 'U' :: "nknown tool: ".data := rfl
  simp [String.data_append, h1]

/-- Every success envelope the dispatcher produces carries `jsonrpc:"2.0"`,
echoes the request id, and has no `error` member. -/
theorem mcpDispatch_ok_shape {ι : Type} (u : String → UpstreamOutcome)
    (req : McpRequest ι) (resp : ResponseEnvelope ι) (n : Nat)
    (h : mcpDispatch u req = (.ok resp, n)) :
    resp.jsonrpc = "2.0" ∧ resp.id = req.id ∧ ∀ e, resp.body ≠ .failure e := by
  unfold mcpDispatch at h
  repeat' split at h
  all_goals (try simp_all [contentEnvelope, Prod.ext_iff])
  all_goals (rcases h with ⟨h1, h2⟩; cases h1; simp [contentEnvelope])

/-- The catch boundary changes the envelope, never the upstream-call count. -/
theorem mcpHandle_snd {ι : Type} (u : String → UpstreamOutcome)
    (req : McpRequest ι) :
    (mcpHandle u req).2 = (mcpDispatch u req).2 := by
  unfold mcpHandle
  rcases h : mcpDispatch u req with ⟨r, n⟩
  cases r <;> simp

/-- C1: the handler is total on every inbound envelope: the response always
carries `jsonrpc:"2.0"` and echoes the request id; every failure is rendered
with code `-32000`; an unsupported method fails with the "Unknown method"
message, and a `tools/call` whose tool name is not `search_radio_stations`
fails with the "Unknown tool" message. -/
theorem mcpHandle_never_crashes {ι : Type} (u : String → UpstreamOutcome)
    (req : McpRequest ι) :
    ((mcpHandle u req).1.jsonrpc = "2.0" ∧ (mcpHandle u req).1.id = req.id) ∧
    (∀ e, (mcpHandle u req).1.body = .failure e → e.code = -32000) ∧
    ((req.method ≠ some "initialize" ∧ req.method ≠ some "tools/list" ∧
        req.method ≠ some "tools/call") →
      (mcpHandle u req).1.body =
        .failure { code := -32000,
                   message := s!"Unknown method: {jsDisplay req.method}" }) ∧
    (∀ p, req.method = some "tools/call" → req.params = some p →
        p.name ≠ some "search_radio_stations" →
      (mcpHandle u req).1.body =
        .failure { code := -32000,
                   message := s!"Unknown tool: {jsDisplay p.name}" }) := by
  refine ⟨?_, ?_, ?_, ?_⟩
  · unfold mcpHandle
    rcases hd : mcpDispatch u req with ⟨r, n⟩
    cases r with
    | ok resp =>
      obtain ⟨h1, h2, _⟩ := mcpDispatch_ok_shape u req resp n hd
      simp [h1, h2]
    | error msg => simp
  · unfold mcpHandle
    rcases hd : mcpDispatch u req with ⟨r, n⟩
    cases r with
    | ok resp =>
      obtain ⟨_, _, h3⟩ := mcpDispatch_ok_shape u req resp n hd
      intro e he
      exact absurd he (h3 e)
    | error msg => simp
  · rintro ⟨h1, h2, h3⟩
    have hd : mcpDispatch u req = (.error s!"Unknown method: {jsDisplay req.method}", 0) := by
      unfold mcpDispatch
      simp [h1, h2, h3]
    simp [mcpHandle, hd, unknown_method_msg_ne req.method]
  · intro p hm hp hn
    have hd : mcpDispatch u req = (.error s!"Unknown tool: {jsDisplay p.name}", 0) := by
      unfold mcpDispatch
      simp [hm, hp, hn]
    simp [mcpHandle, hd, unknown_tool_msg_ne p.name]

/-- Witness for C1 at a concrete request with an unsupported method. -/
theorem mcpHandle_never_crashes_witness :
    (mcpHandle (wUpstream wApiRadio2) wReqBogus).1.body =
      .failure { code := -32000,
                 message := s!"Unknown method: {jsDisplay wReqBogus.method}" } :=
  (mcpHandle_never_crashes (wUpstream wApiRadio2) wReqBogus).2.2.1 (by decide)

/-- C8: an `initialize` request always succeeds, regardless of `params`,
with the fixed protocol version, the fixed `capabilities` object, the fixed
server identity, and the request id echoed; no upstream call is made. -/
theorem initialize_fixed_payload {ι : Type} (u : String → UpstreamOutcome)
    (req : McpRequest ι) (h : req.method = some "initialize") :
    mcpHandle u req =
      ({ jsonrpc := "2.0", id := req.id,
         body := .success (.initResult initializePayload) }, 0) ∧
    initializePayload.protocolVersion = "2024-11-05" ∧
    initializePayload.capabilities = { tools := () } ∧
    initializePayload.serverInfo =
      { name := "radiofm-mcp-server", version := "1.0.0" } := by
  refine ⟨?_, rfl, rfl, rfl⟩
  simp [mcpHandle, mcpDispatch, h]

/-- Witness for C8 at the concrete `initialize` request. -/
theorem initialize_fixed_payload_witness :
    mcpHandle (wUpstream wApiRadio2) wReqInit =
      ({ jsonrpc := "2.0", id := 1,
         body := .success (.initResult initializePayload) }, 0) :=
  (initialize_fixed_payload (wUpstream wApiRadio2) wReqInit rfl).1

/-- C4: a `tools/call` of `search_radio_stations` whose `arguments.query` is
absent or the empty string fails with code `-32000` and the message
"Search query is required", and makes no upstream call. -/
theorem missing_query_rejected {ι : Type} (u : String → UpstreamOutcome)
    (req : McpRequest ι) (p : McpParams)
    (hm : req.method = some "tools/call") (hp : req.params = some p)
    (hn : p.name = some "search_radio_stations")
    (ha : p.arguments.bind McpArgs.query = none ∨
          p.arguments.bind McpArgs.query = some "") :
    mcpHandle u req =
      ({ jsonrpc := "2.0", id := req.id,
         body := .failure { code := -32000,
                            message := "Search query is required" } }, 0) := by
  have hd : mcpDispatch u req = (.error "Search query is required", 0) := by
    unfold mcpDispatch
    rcases ha with h | h <;> simp [hm, hp, hn, h]
  simp [mcpHandle, hd]

/-- Witness for C4 at the concrete missing-query request. -/
theorem missing_query_rejected_witness :
    mcpHandle (wUpstream wApiRadio2) wReqNoQuery =
      ({ jsonrpc := "2.0", id := 4,
         body := .failure { code := -32000,
                            message := "Search query is required" } }, 0) :=
  missing_query_rejected (wUpstream wApiRadio2) wReqNoQuery wParamsNoQuery
    rfl rfl rfl (Or.inl rfl)

/-- C5: a search whose upstream body has `ErrorCode` 0 and an empty or
absent `Data` array succeeds with a single `type:"text"` content item whose
text is the fixed "no results" guidance interpolated with the query. -/
theorem empty_results_guidance {ι : Type} (u : String → UpstreamOutcome)
    (req : McpRequest ι) (p : McpParams) (q : String) (body : ApiResponse)
    (hm : req.method = some "tools/call") (hp : req.params = some p)
    (hn : p.name = some "search_radio_stations")
    (ha : p.arguments.bind McpArgs.query = some q) (hq : q ≠ "")
    (hu : u q = .response body) (he : body.data.ErrorCode = 0)
    (hd : body.data.Data = none ∨ body.data.Data = some []) :
    mcpHandle u req = (contentEnvelope req.id (noResultsText q), 1) := by
  have hds : mcpDispatch u req = (.ok (contentEnvelope req.id (noResultsText q)), 1) := by
    unfold mcpDispatch
    rcases hd with h | h <;> simp [hm, hp, hn, ha, hq, hu, he, h]
  simp [mcpHandle, hds]

/-- Witness for C5 at the concrete empty-results exchange. -/
theorem empty_results_guidance_witness :
    mcpHandle (wUpstream wApiEmpty) wReqSearch =
      (contentEnvelope 7 (noResultsText wQuery), 1) :=
  empty_results_guidance (wUpstream wApiEmpty) wReqSearch wParamsSearch wQuery
    wApiEmpty rfl rfl rfl rfl (by decide) rfl rfl (Or.inr rfl)

/-- C2 counterexample: for an upstream body with `ErrorCode` 7 and an empty
`ErrorMessage`, the envelope's message is "Internal server error" — the
catch boundary's `error.message || 'Internal server error'` fallback — and
not the upstream `ErrorMessage` verbatim, which refutes the unconditional
verbatim clause of the claim. -/
theorem upstream_error_message_cex :
    mcpHandle (wUpstream wApiErrEmpty) wReqSearch =
      ({ jsonrpc := "2.0", id := 7,
         body := .failure { code := -32000,
                            message := "Internal server error" } }, 1) ∧
    wApiErrEmpty.data.ErrorCode = 7 ∧
    wApiErrEmpty.data.ErrorMessage = "" ∧
    ("Internal server error" : String) ≠ "" := by decide

/-- C2 (amended): for a search whose upstream body has a non-zero
`ErrorCode`, the handler fails with code `-32000`; the message is the
upstream `ErrorMessage` verbatim whenever that message is non-empty, and
"Internal server error" when it is empty. -/
theorem upstream_error_message_amended {ι : Type} (u : String → UpstreamOutcome)
    (req : McpRequest ι) (p : McpParams) (q : String) (body : ApiResponse)
    (hm : req.method = some "tools/call") (hp : req.params = some p)
    (hn : p.name = some "search_radio_stations")
    (ha : p.arguments.bind McpArgs.query = some q) (hq : q ≠ "")
    (hu : u q = .response body) (he : body.data.ErrorCode ≠ 0) :
    mcpHandle u req =
      ({ jsonrpc := "2.0", id := req.id,
         body := .failure { code := -32000,
                            message := if body.data.ErrorMessage = ""
                                       then "Internal server error"
                                       else body.data.ErrorMessage } }, 1) := by
  have hds : mcpDispatch u req = (.error body.data.ErrorMessage, 1) := by
    unfold mcpDispatch
    simp [hm, hp, hn, ha, hq, hu, he]
  simp [mcpHandle, hds]

/-- Witness for the amended C2: the spec's own example, `ErrorCode` 7 with
`ErrorMessage` "rate limited", surfaces exactly "rate limited". -/
theorem upstream_error_message_amended_witness :
    mcpHandle (wUpstream wApiErr) wReqSearch =
      ({ jsonrpc := "2.0", id := 7,
         body := .failure { code := -32000, message := "rate limited" } }, 1) := by
  have h := upstream_error_message_amended (wUpstream wApiErr) wReqSearch
    wParamsSearch wQuery wApiErr rfl rfl rfl rfl (by decide) rfl (by decide)
  rw [h]
  decide

/-- C3 counterexample: for an upstream success whose only group is a
non-empty podcast group, the handler's text is just the header and the
call-to-action — the podcast is not rendered, because the podcast section
of `src/index.ts` (lines 218-226) is commented out.  The claim's assembly,
which renders each podcast with the podcast formatter, gives a different
string at this input. -/
theorem search_sections_podcast_cex :
    (mcpHandle (wUpstream wApiPodOnly) wReqSearch).1 =
      contentEnvelope 7 (String.intercalate "\n"
        [s!"Search Results for \"{wQuery}\"",
         "\nTap on any \"Listen\" link to play on radiofm.co"]) ∧
    String.intercalate "\n"
        [s!"Search Results for \"{wQuery}\"",
         "\nTap on any \"Listen\" link to play on radiofm.co"] ≠
      String.intercalate "\n"
        [s!"Search Results for \"{wQuery}\"",
         formatPodcast wPodShort 1,
         "\nTap on any \"Listen\" link to play on radiofm.co"] := by decide

/-- C3 (amended): for a search whose upstream body has `ErrorCode` 0 and a
non-empty `Data` array, the returned text is the header line containing the
query, then — when a group tagged "radio" exists with non-empty data — the
heading "RADIO STATIONS (N)" followed by the N stations rendered by the
station formatter numbered from 1 in input order, then the trailing
call-to-action line, all joined by newlines; podcast groups are never
rendered. -/
theorem search_sections_amended {ι : Type} (u : String → UpstreamOutcome)
    (req : McpRequest ι) (p : McpParams) (q : String) (body : ApiResponse)
    (results : List SearchGroup)
    (hm : req.method = some "tools/call") (hp : req.params = some p)
    (hn : p.name = some "search_radio_stations")
    (ha : p.arguments.bind McpArgs.query = some q) (hq : q ≠ "")
    (hu : u q = .response body) (he : body.data.ErrorCode = 0)
    (hd : body.data.Data = some results) (hne : results ≠ []) :
    mcpHandle u req =
      (contentEnvelope req.id (String.intercalate "\n"
        ([s!"Search Results for \"{q}\""]
         ++ (match results.find? (fun r => r.type == "radio") with
             | some rd =>
               if rd.data.length > 0 then
                 [s!"\nRADIO STATIONS ({rd.data.castStations.length})"]
                 ++ rd.data.castStations.mapIdx
                     (fun index station => formatRadioStation station (index + 1))
               else []
             | none => [])
         ++ ["\nTap on any \"Listen\" link to play on radiofm.co"])), 1) := by
  have hlen : ¬ results.length = 0 := by simpa [List.length_eq_zero] using hne
  have hds : mcpDispatch u req =
      (.ok (contentEnvelope req.id (searchResultText q results)), 1) := by
    unfold mcpDispatch
    simp [hm, hp, hn, ha, hq, hu, he, hd, hlen]
  have htext : searchResultText q results = String.intercalate "\n"
      ([s!"Search Results for \"{q}\""]
       ++ (match results.find? (fun r => r.type == "radio") with
           | some rd =>
             if rd.data.length > 0 then
               [s!"\nRADIO STATIONS ({rd.data.castStations.length})"]
               ++ rd.data.castStations.mapIdx
                   (fun index station => formatRadioStation station (index + 1))
             else []
           | none => [])
       ++ ["\nTap on any \"Listen\" link to play on radiofm.co"]) := by
    unfold searchResultText searchSections
    cases hfind : results.find? (fun r => r.type == "radio") with
    | none => simp
    | some rd =>
      by_cases hgt : rd.data.length > 0 <;> simp [hgt]
  rw [htext] at hds
  simp [mcpHandle, hds]

set_option maxRecDepth 8192 in
/-- Witness for the amended C3: one radio group with two stations yields the
header, the heading "RADIO STATIONS (2)", the two stations numbered in
input order, and the call-to-action. -/
theorem search_sections_amended_witness :
    mcpHandle (wUpstream wApiRadio2) wReqSearch =
      (contentEnvelope 7 (String.intercalate "\n"
        ([s!"Search Results for \"{wQuery}\""]
         ++ ([s!"\nRADIO STATIONS ({(2 : Nat)})"]
             ++ [formatRadioStation wStation 1, formatRadioStation wStation2 2])
         ++ ["\nTap on any \"Listen\" link to play on radiofm.co"])), 1) := by
  have h := search_sections_amended (wUpstream wApiRadio2) wReqSearch
    wParamsSearch wQuery wApiRadio2 wResultsRadio2 rfl rfl rfl rfl (by decide)
    rfl rfl rfl (by decide)
  rw [h]
  decide

/-- C6: the podcast formatter emits a Description line exactly when `p_desc`
is non-empty; a description longer than 100 characters is rendered as
exactly its first 100 characters followed by "...", and one of length at
most 100 (in particular exactly 100) is rendered unmodified. -/
theorem formatPodcast_description_spec (podcast : Podcast) (index : Nat) :
    (podcast.p_desc ≠ "" →
      formatPodcast podcast index = String.intercalate "\n"
        [s!"{index}. {podcast.p_name}",
         s!"Category: {podcast.cat_name}",
         s!"Language: {podcast.p_lang}",
         s!"Description: {shortDescJs podcast.p_desc}",
         s!"Streams: {jsToLocaleString (jsParseInt podcast.total_stream)}",
         s!"Listen: {podcast.deeplink}"]) ∧
    (podcast.p_desc = "" →
      formatPodcast podcast index = String.intercalate "\n"
        [s!"{index}. {podcast.p_name}",
         s!"Category: {podcast.cat_name}",
         s!"Language: {podcast.p_lang}",
         s!"Streams: {jsToLocaleString (jsParseInt podcast.total_stream)}",
         s!"Listen: {podcast.deeplink}"]) ∧
    (s!"Description: {shortDescJs podcast.p_desc}" ∈ formatPodcastLines podcast index ↔
      podcast.p_desc ≠ "") ∧
    (podcast.p_desc.length > 100 →
      shortDescJs podcast.p_desc = String.mk (podcast.p_desc.data.take 100) ++ "..." ∧
      (String.mk (podcast.p_desc.data.take 100)).length = 100) ∧
    (podcast.p_desc.length ≤ 100 → shortDescJs podcast.p_desc = podcast.p_desc) := by
  refine ⟨?_, ?_, ?_, ?_, ?_⟩
  · intro h
    unfold formatPodcast formatPodcastLines
    simp [h]
  · intro h
    unfold formatPodcast formatPodcastLines
    simp [h]
  · constructor
    · intro hmem
      intro hcontra
      rw [hcontra] at hmem
      simp only [formatPodcastLines, hcontra, ne_eq, not_true_eq_false, if_false,
        ite_false, List.mem_append, List.mem_cons, List.not_mem_nil, or_false] at hmem
      have hD : (toString "Description: " ++ toString (shortDescJs "") ++ toString "").data.head? = some 'D' := rfl
      have hC : "Category: ".data = 'C' :: "ategory: ".data := rfl
      have hL : "Language: ".data = 'L' :: "anguage: ".data := rfl
      have hS : "Streams: ".data = 'S' :: "treams: ".data := rfl
      have hLi : "Listen: ".data = 'L' :: "isten: ".data := rfl
      rcases hmem with (h1 | h2 | h3) | (h4 | h5)
      · obtain ⟨c, hc, hcd⟩ := numbered_head_digit index podcast.p_name
        rw [h1] at hD
        rw [hD] at hc
        cases hc
        exact absurd hcd (by decide)
      · have hb : (s!"Category: {podcast.cat_name}").data.head? = some 'C' := by
          simp [toString_string, String.data_append, hC]
        exact absurd h2 (head_ne_of_head hD hb (by decide))
      · have hb : (s!"Language: {podcast.p_lang}").data.head? = some 'L' := by
          simp [toString_string, String.data_append, hL]
        exact absurd h3 (head_ne_of_head hD hb (by decide))
      · have hb : (s!"Streams: {jsToLocaleString (jsParseInt podcast.total_stream)}").data.head? = some 'S' := by
          simp [toString_string, String.data_append, hS]
        exact absurd h4 (head_ne_of_head hD hb (by decide))
      · have hb : (s!"Listen: {podcast.deeplink}").data.head? = some 'L' := by
          simp [toString_string, String.data_append, hLi]
        exact absurd h5 (head_ne_of_head hD hb (by decide))
    · intro h
      simp [formatPodcastLines, h]
  · intro h
    have htake : podcast.p_desc.take 100 = String.mk (podcast.p_desc.data.take 100) := by
      apply String.ext
      simp [String.data_take]
    constructor
    · rw [shortDescJs, if_pos h, htake]
    · show (podcast.p_desc.data.take 100).length = 100
      have hlen : podcast.p_desc.data.length = podcast.p_desc.length := rfl
      simp [List.length_take]
      omega
  · intro h
    rw [shortDescJs, if_neg (by omega)]

/-- Witness for C6: a 101-character description is truncated to its first
100 characters plus "...", a 100-character one is unmodified, and an empty
one omits the Description line. -/
theorem formatPodcast_description_spec_witness :
    wPodLong.p_desc.length > 100 ∧
    shortDescJs wPodLong.p_desc = String.mk (wPodLong.p_desc.data.take 100) ++ "..." ∧
    (String.mk (wPodLong.p_desc.data.take 100)).length = 100 ∧
    wPodExact.p_desc.length = 100 ∧
    shortDescJs wPodExact.p_desc = wPodExact.p_desc ∧
    wPodNoDesc.p_desc = "" ∧
    formatPodcast wPodNoDesc 3 = String.intercalate "\n"
      [s!"{(3 : Nat)}. {wPodNoDesc.p_name}",
       s!"Category: {wPodNoDesc.cat_name}",
       s!"Language: {wPodNoDesc.p_lang}",
       s!"Streams: {jsToLocaleString (jsParseInt wPodNoDesc.total_stream)}",
       s!"Listen: {wPodNoDesc.deeplink}"] := by
  have h1 := (formatPodcast_description_spec wPodLong 1).2.2.2.1 (by decide)
  have h2 := (formatPodcast_description_spec wPodExact 2).2.2.2.2 (by decide)
  have h3 := (formatPodcast_description_spec wPodNoDesc 3).2.1 rfl
  exact ⟨by decide, h1.1, h1.2, by decide, h2, rfl, h3⟩

/-- C7: the station formatter emits a Frequency line exactly when
`st_bc_freq` is not the sentinel "~", and the remaining lines — numbered
name, location, language, genre, stream type with bitrate, play count with
locale separators, listen link — are identical in both cases. -/
theorem formatRadioStation_frequency_spec (station : RadioStation) (index : Nat) :
    (station.st_bc_freq ≠ "~" →
      formatRadioStation station index = String.intercalate "\n"
        [s!"{index}. {station.st_name}",
         s!"Location: {station.st_city}, {station.st_state}, {station.country_name_rs}",
         s!"Language: {station.language}",
         s!"Genre: {station.st_genre}",
         s!"Frequency: {station.st_bc_freq}",
         s!"Stream: {station.stream_type} {station.stream_bitrate}kbps",
         s!"Plays: {jsToLocaleString (jsParseInt station.st_play_cnt)}",
         s!"Listen:\x27https://appradiofm.com/radioplay/\x27 {station.st_shorturl}"]) ∧
    (station.st_bc_freq = "~" →
      formatRadioStation station index = String.intercalate "\n"
        [s!"{index}. {station.st_name}",
         s!"Location: {station.st_city}, {station.st_state}, {station.country_name_rs}",
         s!"Language: {station.language}",
         s!"Genre: {station.st_genre}",
         s!"Stream: {station.stream_type} {station.stream_bitrate}kbps",
         s!"Plays: {jsToLocaleString (jsParseInt station.st_play_cnt)}",
         s!"Listen:\x27https://appradiofm.com/radioplay/\x27 {station.st_shorturl}"]) ∧
    (s!"Frequency: {station.st_bc_freq}" ∈ formatRadioStationLines station index ↔
      station.st_bc_freq ≠ "~") := by
  refine ⟨?_, ?_, ?_, ?_⟩
  · intro h
    unfold formatRadioStation formatRadioStationLines
    simp [h]
  · intro h
    unfold formatRadioStation formatRadioStationLines
    simp [h]
  · intro hmem
    intro hcontra
    rw [hcontra] at hmem
    simp only [formatRadioStationLines, hcontra, ne_eq, not_true_eq_false, if_false,
      ite_false, List.mem_append, List.mem_cons, List.not_mem_nil, or_false] at hmem
    have hF : (toString "Frequency: " ++ toString "~" ++ toString "").data.head? = some 'F' := rfl
    have hL1 : "Location: ".data = 'L' :: "ocation: ".data := rfl
    have hL2 : "Language: ".data = 'L' :: "anguage: ".data := rfl
    have hG : "Genre: ".data = 'G' :: "enre: ".data := rfl
    have hS : "Stream: ".data = 'S' :: "tream: ".data := rfl
    have hP : "Plays: ".data = 'P' :: "lays: ".data := rfl
    have hLi : "Listen:\x27https://appradiofm.com/radioplay/\x27 ".data =
        'L' :: "isten:\x27https://appradiofm.com/radioplay/\x27 ".data := rfl
    rcases hmem with (h1 | h2 | h3 | h4) | (h5 | h6 | h7)
    · obtain ⟨c, hc, hcd⟩ := numbered_head_digit index station.st_name
      rw [h1] at hF
      rw [hF] at hc
      cases hc
      exact absurd hcd (by decide)
    · have hb : (s!"Location: {station.st_city}, {station.st_state}, {station.country_name_rs}").data.head? = some 'L' := by
        simp [toString_string, String.data_append, hL1]
      exact absurd h2 (head_ne_of_head hF hb (by decide))
    · have hb : (s!"Language: {station.language}").data.head? = some 'L' := by
        simp [toString_string, String.data_append, hL2]
      exact absurd h3 (head_ne_of_head hF hb (by decide))
    · have hb : (s!"Genre: {station.st_genre}").data.head? = some 'G' := by
        simp [toString_string, String.data_append, hG]
      exact absurd h4 (head_ne_of_head hF hb (by decide))
    · have hb : (s!"Stream: {station.stream_type} {station.stream_bitrate}kbps").data.head? = some 'S' := by
        simp [toString_string, String.data_append, hS]
      exact absurd h5 (head_ne_of_head hF hb (by decide))
    · have hb : (s!"Plays: {jsToLocaleString (jsParseInt station.st_play_cnt)}").data.head? = some 'P' := by
        simp [toString_string, String.data_append, hP]
      exact absurd h6 (head_ne_of_head hF hb (by decide))
    · have hb : (s!"Listen:\x27https://appradiofm.com/radioplay/\x27 {station.st_shorturl}").data.head? = some 'L' := by
        simp [toString_string, String.data_append, hLi]
      exact absurd h7 (head_ne_of_head hF hb (by decide))
  · intro h
    simp [formatRadioStationLines, h]

/-- Witness for C7: a station with frequency "98.5 FM" keeps its Frequency
line; the same station with the sentinel "~" omits exactly that line. -/
theorem formatRadioStation_frequency_spec_witness :
    wStation.st_bc_freq ≠ "~" ∧
    s!"Frequency: {wStation.st_bc_freq}" ∈ formatRadioStationLines wStation 1 ∧
    wStationTilde.st_bc_freq = "~" ∧
    formatRadioStation wStationTilde 2 = String.intercalate "\n"
      [s!"{(2 : Nat)}. {wStationTilde.st_name}",
       s!"Location: {wStationTilde.st_city}, {wStationTilde.st_state}, {wStationTilde.country_name_rs}",
       s!"Language: {wStationTilde.language}",
       s!"Genre: {wStationTilde.st_genre}",
       s!"Stream: {wStationTilde.stream_type} {wStationTilde.stream_bitrate}kbps",
       s!"Plays: {jsToLocaleString (jsParseInt wStationTilde.st_play_cnt)}",
       s!"Listen:\x27https://appradiofm.com/radioplay/\x27 {wStationTilde.st_shorturl}"] :=
  ⟨by decide,
   ((formatRadioStation_frequency_spec wStation 1).2.2).mpr (by decide),
   rfl,
   (formatRadioStation_frequency_spec wStationTilde 2).2.1 rfl⟩

/-- C9: the handler makes at most one outbound upstream call, and makes
exactly one precisely when the request is a `tools/call` of
`search_radio_stations` with a present, non-empty `arguments.query`;
every other request makes zero. -/
theorem upstream_call_count {ι : Type} (u : String → UpstreamOutcome)
    (req : McpRequest ι) :
    (mcpHandle u req).2 ≤ 1 ∧
    ((mcpHandle u req).2 = 1 ↔
      req.method = some "tools/call" ∧
      ∃ p, req.params = some p ∧ p.name = some "search_radio_stations" ∧
        ∃ q, p.arguments.bind McpArgs.query = some q ∧ q ≠ "") := by
  rw [mcpHandle_snd]
  unfold mcpDispatch
  by_cases h1 : req.method = some "initialize"
  · simp [h1]
  · by_cases h2 : req.method = some "tools/list"
    · simp [h1, h2]
    · by_cases h3 : req.method = some "tools/call"
      · rcases hp : req.params with _ | p
        · simp [h1, h2, h3, hp]
        · by_cases h4 : p.name = some "search_radio_stations"
          · rcases hb : p.arguments.bind McpArgs.query with _ | q
            · simp [h1, h2, h3, hp, h4, hb]
            · by_cases h5 : q = ""
              · simp [h1, h2, h3, hp, h4, hb, h5]
              · simp only [h1, h2, h3, hp, h4, hb, h5, if_false, if_true, if_neg, if_pos]
                repeat' split
                all_goals simp_all
          · simp [h1, h2, h3, hp, h4]
      · simp [h1, h2, h3]

/-- Witness for C9: the concrete search request makes exactly one upstream
call; the concrete `initialize` request makes zero. -/
theorem upstream_call_count_witness :
    (mcpHandle (wUpstream wApiRadio2) wReqSearch).2 = 1 ∧
    (mcpHandle (wUpstream wApiRadio2) wReqInit).2 = 0 := by
  constructor
  · exact (upstream_call_count (wUpstream wApiRadio2) wReqSearch).2.mpr
      ⟨rfl, wParamsSearch, rfl, rfl, wQuery, rfl, by decide⟩
  · have h := upstream_call_count (wUpstream wApiRadio2) wReqInit
    rcases Nat.lt_or_ge (mcpHandle (wUpstream wApiRadio2) wReqInit).2 1 with hlt | hge
    · omega
    · have h1 : (mcpHandle (wUpstream wApiRadio2) wReqInit).2 = 1 := by
        have := h.1
        omega
      have hP := h.2.mp h1
      exact absurd hP.1 (by decide)

/-- C10: for an upstream success with a non-empty `Data` array in which no
radio-tagged and no podcast-tagged group has a non-empty data list, the
handler succeeds with exactly the header line and the call-to-action joined
by a newline — not the "no results" guidance message. -/
theorem no_nonempty_groups_header_cta {ι : Type} (u : String → UpstreamOutcome)
    (req : McpRequest ι) (p : McpParams) (q : String) (body : ApiResponse)
    (results : List SearchGroup)
    (hm : req.method = some "tools/call") (hp : req.params = some p)
    (hn : p.name = some "search_radio_stations")
    (ha : p.arguments.bind McpArgs.query = some q) (hq : q ≠ "")
    (hu : u q = .response body) (he : body.data.ErrorCode = 0)
    (hd : body.data.Data = some results) (hne : results ≠ [])
    (hall : ∀ g ∈ results, (g.type = "radio" → g.data.length = 0) ∧
                           (g.type = "podcast" → g.data.length = 0)) :
    mcpHandle u req =
      (contentEnvelope req.id (String.intercalate "\n"
        [s!"Search Results for \"{q}\"",
         "\nTap on any \"Listen\" link to play on radiofm.co"]), 1) ∧
    String.intercalate "\n"
        [s!"Search Results for \"{q}\"",
         "\nTap on any \"Listen\" link to play on radiofm.co"] ≠ noResultsText q := by
  constructor
  · have hlen : ¬ results.length = 0 := by simpa [List.length_eq_zero] using hne
    have hds : mcpDispatch u req =
        (.ok (contentEnvelope req.id (searchResultText q results)), 1) := by
      unfold mcpDispatch
      simp [hm, hp, hn, ha, hq, hu, he, hd, hlen]
    have htext : searchResultText q results = String.intercalate "\n"
        [s!"Search Results for \"{q}\"",
         "\nTap on any \"Listen\" link to play on radiofm.co"] := by
      unfold searchResultText searchSections
      cases hfind : results.find? (fun r => r.type == "radio") with
      | none => simp
      | some rd =>
        have hmem := List.mem_of_find?_eq_some hfind
        have hpred := List.find?_some hfind
        have hty : rd.type = "radio" := by simpa using hpred
        have hzero : rd.data.length = 0 := (hall rd hmem).1 hty
        simp [hzero]
    rw [htext] at hds
    simp [mcpHandle, hds]
  · apply string_head_ne
    have e1 : String.intercalate "\n"
        [s!"Search Results for \"{q}\"",
         "\nTap on any \"Listen\" link to play on radiofm.co"] =
        (("Search Results for \"" ++ q ++ "\"") ++ "\n") ++
          "\nTap on any \"Listen\" link to play on radiofm.co" := rfl
    have e2 : noResultsText q =
        ("🔍 No results found for \"" ++ q) ++ "\"\n\nTry searching with:\n- Station name (e.g., \"BBC\", \"NPR\")\n- Country (e.g., \"UK\", \"USA\", \"India\")\n- Language (e.g., \"English\", \"Spanish\")\n- Genre (e.g., \"Jazz\", \"News\", \"Rock\")" := rfl
    rw [e1, e2]
    have h1 : "Search Results for \"".data = 'S' :: "earch Results for \"".data := rfl
    have h2 : "🔍 No results found for \"".data = '🔍' :: " No results found for \"".data := rfl
    simp [String.data_append, h1, h2]

/-- Witness for C10 at the concrete exchange whose `Data` array holds one
empty radio group and one empty podcast group. -/
theorem no_nonempty_groups_header_cta_witness :
    mcpHandle (wUpstream wApiNoGroups) wReqSearch =
      (contentEnvelope 7 (String.intercalate "\n"
        [s!"Search Results for \"{wQuery}\"",
         "\nTap on any \"Listen\" link to play on radiofm.co"]), 1) ∧
    String.intercalate "\n"
        [s!"Search Results for \"{wQuery}\"",
         "\nTap on any \"Listen\" link to play on radiofm.co"] ≠ noResultsText wQuery :=
  no_nonempty_groups_header_cta (wUpstream wApiNoGroups) wReqSearch wParamsSearch
    wQuery wApiNoGroups wResultsNoGroups rfl rfl rfl rfl (by decide) rfl rfl rfl
    (by decide) (by decide)

end RadioFM
